import Mathlib

/-!
# SQLiteCls — verification of the `SqliteDb` wrapper

Shallow embedding of `src/sqlitecls.py` (class `SqliteDb`): a thin wrapper
around an SQLite connection that opens/closes a database file and runs an
initialisation script when the database has no tables at open time.

Modelling choices, stated once:

* The database file's persistent content is a `DbState`: the catalog
  (`sqlite_master`, a list of rows with a type and a name), the row count of
  every user table, and the engine's pragma store.  The engine itself is an
  external collaborator of the repository; only the fragments of its
  behaviour that the wrapper touches are modelled, each from the spec where
  the spec describes it (marked `Modelled from the spec:` on the definition).
* A script file is abstracted to its parsed content, `List Stmt`; the
  handle's `init_script_file_name` field therefore holds an
  `Option (List Stmt)` (Python's falsy `None` becomes `none`).
* The `connection` and `cursor` fields of the Python object are nullable
  references; here they are `Option Unit` (presence only), and the database
  content is passed alongside the handle.
* A Python exception is an `Except`/`Option` error value.  The spec's
  abstract error taxonomy is used: the `AttributeError` raised by calling a
  method on a `None` cursor is the spec's *NotOpenError*; a statement the
  engine rejects is a *StatementError*; a failing script statement is a
  *ScriptError*.
* Engine interactions are recorded as an event trace (`Ev`), so ordering
  claims ("cursor released before connection", "count query before script")
  are statements about lists.
-/

deriving instance DecidableEq for Except

namespace SQLiteCls

/-- The type column of a `sqlite_master` catalog row. -/
inductive ObjType
  | table
  | view
  | index
  | trigger
deriving DecidableEq

/-- One row of the engine's `sqlite_master` catalog. -/
structure MasterRow where
  typ : ObjType
  name : String
deriving DecidableEq

/-- The persistent content of one database file: catalog rows, the row count
of each user table (an association list keyed by table name), and the pragma
store of the engine. -/
structure DbState where
  master : List MasterRow
  rows : List (String × Nat)
  pragmas : List (String × String)
deriving DecidableEq

/-- A freshly created database: no catalog entries, no data. -/
def emptyDb : DbState := ⟨[], [], []⟩

/-- One statement of a script or of ad-hoc caller SQL, abstracted to its
effect on the database: create a table, create a view, insert one row into a
table, or a statement the engine rejects. -/
inductive Stmt
  | createTable (name : String)
  | createView (name : String)
  | insertRow (tbl : String)
  | invalidStmt
deriving DecidableEq

/-- Whether the catalog already holds an object of the given name. -/
def hasObj (db : DbState) (n : String) : Bool :=
  db.master.any (fun r => r.name == n)

/-- Increment the row count of table `t` in the association list. -/
def bumpRow (rs : List (String × Nat)) (t : String) : List (String × Nat) :=
  rs.map (fun p => if p.1 == t then (p.1, p.2 + 1) else p)

/-- Engine semantics of one statement: `none` means the engine rejects it
(duplicate object name, insert into a missing table, or an invalid
statement). -/
def applyStmt (db : DbState) : Stmt → Option DbState
  | Stmt.createTable n =>
      if hasObj db n then none
      else some ⟨db.master ++ [⟨ObjType.table, n⟩], db.rows ++ [(n, 0)], db.pragmas⟩
  | Stmt.createView n =>
      if hasObj db n then none
      else some ⟨db.master ++ [⟨ObjType.view, n⟩], db.rows, db.pragmas⟩
  | Stmt.insertRow t =>
      if db.rows.any (fun p => p.1 == t) then some ⟨db.master, bumpRow db.rows t, db.pragmas⟩
      else none
  | Stmt.invalidStmt => none

/-- The spec's error taxonomy, as far as the claims need it. -/
inductive Err
  | notOpen
  | scriptError
  | statementError
deriving DecidableEq

/-- `Cursor.executescript` of the engine: statements run in file order; the
first failing statement aborts the rest of the script (earlier statements
keep their effect) and surfaces a *ScriptError*. -/
def runScript : List Stmt → DbState → DbState × Option Err
  | [], db => (db, none)
  | s :: rest, db =>
      match applyStmt db s with
      | some db1 => runScript rest db1
      | none => (db, some Err.scriptError)

/-- The engine's answer to `Q_COUNT_TABLES`
(`SELECT count(*) FROM sqlite_master WHERE type='table'`): the number of
catalog rows whose type column is `table`. -/
def countTablesResult (db : DbState) : Nat :=
  (db.master.filter (fun r => r.typ == ObjType.table)).length

/-- `sqlite3.connect`: opens the existing file, or creates a fresh empty
database when the file does not exist. -/
def connectDb (file : Option DbState) : DbState := file.getD emptyDb

/-- What the wrapper submits to the engine: a raw statement string (via
`cursor.execute`) or a whole script (via `cursor.executescript`). -/
inductive EngCmd
  | query (sql : String)
  | script (stmts : List Stmt)
deriving DecidableEq

/-- An observable engine interaction: a submission, or the release of the
cursor or of the connection. -/
inductive Ev
  | submit (c : EngCmd)
  | closeCursor
  | closeConnection
deriving DecidableEq

/-- The wrapper object (`class SqliteDb`), with the four attributes
`__init__` assigns (source lines 48-51). -/
structure SqliteDb where
  db_file_name : String
  init_script_file_name : Option (List Stmt)
  connection : Option Unit
  cursor : Option Unit
deriving DecidableEq

/-- `SqliteDb.__init__` (source lines 32-51): stores the two configuration
arguments and sets `connection` and `cursor` to `None`.  A pure function: it
takes no database state and produces none, and it is total, which embeds
"does not touch the filesystem or any engine" and "no error conditions". -/
def SqliteDb.init (db_file_name : String)
    (init_script_file_name : Option (List Stmt)) : SqliteDb :=
  ⟨db_file_name, init_script_file_name, none, none⟩

/-- Source line 15. -/
def SqliteDb.Q_COUNT_TABLES : String :=
  "SELECT count(*) FROM sqlite_master WHERE type='table'"

/-- Source line 16. -/
def SqliteDb.Q_TABLES : String := "SELECT name FROM sqlite_master WHERE type='table'"

/-- Source line 17. -/
def SqliteDb.Q_START : String := "START TRANSACTION"

/-- Source line 18. -/
def SqliteDb.Q_ROLLBACK : String := "ROLLBACK"

/-- Source line 19. -/
def SqliteDb.Q_COMMIT : String := "COMMIT"

/-- Source line 20. -/
def SqliteDb.Q_VACUUM : String := "VACUUM"

/-- Source lines 21-26: the Python string concatenation evaluated. -/
def SqliteDb.PRAGMAS : String :=
  " PRAGMA journal_mode = WAL; PRAGMA cache_size = -100000; PRAGMA synchronous = EXTRA; PRAGMA temp_store = memory; "

/-- Source lines 27-28. -/
def SqliteDb.PRAGMAS_PER_CONNECTION : String :=
  "PRAGMA encoding = 'UTF-8'; PRAGMA foreign_keys = ON; "

/-- Source line 29. -/
def SqliteDb.PRAGMAS_PER_DB : String := ""

/-- Source line 30. -/
def SqliteDb.PRAGMAS_HARD_CONSISTENCY : String := ""

/-- `SqliteDb.is_empty_db` (source lines 76-78): executes `Q_COUNT_TABLES`
on the cursor and compares the fetched count with zero.  On a `None` cursor
the attribute access fails (*NotOpenError* in the spec's taxonomy). -/
def SqliteDb.is_empty_db (h : SqliteDb) (db : DbState) : Except Err Bool :=
  match h.cursor with
  | none => Except.error Err.notOpen
  | some _ => Except.ok (countTablesResult db == 0)

/-- Everything `__enter__` produces: the mutated handle, the database content
after the call, the engine interactions in order, and the exception that
propagates (`none` = returned normally). -/
structure EnterResult where
  handle : SqliteDb
  db : DbState
  trace : List Ev
  err : Option Err
deriving DecidableEq

/-- `SqliteDb.__enter__` (source lines 53-60): connect (creating the file if
absent), obtain the cursor, and — because Python's `and` short-circuits —
only when `init_script_file_name` is set, run `is_empty_db` (which submits
`Q_COUNT_TABLES`) and, if it returned true, `executescript` the init script.
The two field assignments happen before the conditional, so they are in
place even when the script fails. -/
def SqliteDb.enter (h : SqliteDb) (file : Option DbState) : EnterResult :=
  let db := connectDb file
  let h1 : SqliteDb := ⟨h.db_file_name, h.init_script_file_name, some (), some ()⟩
  match h1.init_script_file_name with
  | none => ⟨h1, db, [], none⟩
  | some script =>
      match h1.is_empty_db db with
      | Except.error e =>
          ⟨h1, db, [Ev.submit (EngCmd.query SqliteDb.Q_COUNT_TABLES)], some e⟩
      | Except.ok true =>
          let r := runScript script db
          ⟨h1, r.1,
            [Ev.submit (EngCmd.query SqliteDb.Q_COUNT_TABLES),
             Ev.submit (EngCmd.script script)], r.2⟩
      | Except.ok false =>
          ⟨h1, db, [Ev.submit (EngCmd.query SqliteDb.Q_COUNT_TABLES)], none⟩

/-- `SqliteDb.__exit__` (source lines 62-69): close the cursor if present and
set it to `None`, then close the connection if present and set it to `None`.
Total — the method cannot raise — and the returned event list records the
release order. -/
def SqliteDb.exit (h : SqliteDb) : SqliteDb × List Ev :=
  let p1 : SqliteDb × List Ev :=
    match h.cursor with
    | some _ =>
        (⟨h.db_file_name, h.init_script_file_name, h.connection, none⟩, [Ev.closeCursor])
    | none => (h, [])
  match p1.1.connection with
  | some _ =>
      (⟨p1.1.db_file_name, p1.1.init_script_file_name, none, p1.1.cursor⟩,
        p1.2 ++ [Ev.closeConnection])
  | none => p1

/-- A raw statement string the engine's dialect accepts, once parsed. -/
inductive RawParsed
  | beginTxn
  | commitTxn
  | rollbackTxn
  | vacuumCmd
  | pragmaRead (name : String)
  | pragmaWrite (name : String) (value : String)
deriving DecidableEq

/-- A legal pragma name: a non-empty identifier.  A bare parameter marker
`?` is not one. -/
def isIdentChars (cs : List Char) : Bool :=
  !cs.isEmpty && cs.all (fun c => c.isAlphanum || c == '_')

/-- Strip the first list as a prefix of the second, or fail. -/
def dropPrefixChars : List Char → List Char → Option (List Char)
  | [], cs => some cs
  | _ :: _, [] => none
  | p :: ps, c :: cs => if p == c then dropPrefixChars ps cs else none

/-- Split a character list at the first occurrence of `" = "`. -/
def splitEqAux : List Char → Option (List Char × List Char)
  | [] => none
  | ' ' :: '=' :: ' ' :: rest => some ([], rest)
  | c :: rest =>
      match splitEqAux rest with
      | some (l, r) => some (c :: l, r)
      | none => none

/-- The tail of a `PRAGMA ` statement: either `name` or `name = value`,
where the name must be an identifier. -/
def parsePragmaTail (cs : List Char) : Option RawParsed :=
  match splitEqAux cs with
  | none =>
      if isIdentChars cs then some (RawParsed.pragmaRead (String.mk cs)) else none
  | some (n, v) =>
      if isIdentChars n then some (RawParsed.pragmaWrite (String.mk n) (String.mk v))
      else none

/-- Modelled from the spec: the engine's statement dialect, an external
collaborator not in the repository.  Spec §4.1 and §9 supply the two facts
the claims turn on: parameter substitution is not available for the *name*
of a pragma (the name position must be a literal identifier), and the
dialect's transaction-start syntax is `BEGIN [TRANSACTION]`, which the
original's `START TRANSACTION` string does not match.  Any other text is
rejected with a statement error. -/
def parseRaw (text : String) : Option RawParsed :=
  if text = "BEGIN" ∨ text = "BEGIN TRANSACTION" then some RawParsed.beginTxn
  else if text = "COMMIT" then some RawParsed.commitTxn
  else if text = "ROLLBACK" then some RawParsed.rollbackTxn
  else if text = "VACUUM" then some RawParsed.vacuumCmd
  else
    match dropPrefixChars "PRAGMA ".toList text.toList with
    | some rest => parsePragmaTail rest
    | none => none

/-- The current value of a pragma in the engine's store (engines report a
default — here the empty string — for a pragma never written). -/
def pragmaValue (db : DbState) (n : String) : String :=
  match db.pragmas.find? (fun p => p.1 == n) with
  | some p => p.2
  | none => ""

/-- Write a pragma value into the engine's store. -/
def setPragma (db : DbState) (n v : String) : DbState :=
  ⟨db.master, db.rows, (n, v) :: db.pragmas⟩

/-- Modelled from the spec: parameter binding substitutes a bound value for
a `?` marker in a value position only (spec §4.1). -/
def substValue (v : String) (params : List String) : String :=
  if v = "?" then params.headD "" else v

/-- Engine semantics of a parsed raw statement.  Transaction control and
`VACUUM` are delegated to the engine (spec: "treat as undefined/delegated")
and leave the modelled state unchanged; a pragma read answers from the
store; a pragma write updates it. -/
def applyRaw (db : DbState) (p : RawParsed) (params : List String) :
    DbState × Option String :=
  match p with
  | RawParsed.beginTxn => (db, none)
  | RawParsed.commitTxn => (db, none)
  | RawParsed.rollbackTxn => (db, none)
  | RawParsed.vacuumCmd => (db, none)
  | RawParsed.pragmaRead n => (db, some (pragmaValue db n))
  | RawParsed.pragmaWrite n v => (setPragma db n (substValue v params), none)

/-- `self.cursor.execute(text, params)`: *NotOpenError* on a `None` cursor,
*StatementError* when the engine rejects the text, otherwise the new
database state and the fetched value (for a read). -/
def SqliteDb.executeRaw (h : SqliteDb) (db : DbState) (text : String)
    (params : List String) : Except Err (DbState × Option String) :=
  match h.cursor with
  | none => Except.error Err.notOpen
  | some _ =>
      match parseRaw text with
      | none => Except.error Err.statementError
      | some p => Except.ok (applyRaw db p params)

/-- `SqliteDb.__getitem__` (source lines 80-81):
`self.cursor.execute('PRAGMA ?', (item,)).fetchone()[0]`. -/
def SqliteDb.getitem (h : SqliteDb) (db : DbState) (item : String) :
    Except Err String :=
  (h.executeRaw db "PRAGMA ?" [item]).map (fun r => r.2.getD "")

/-- `SqliteDb.__setitem__` (source lines 83-84):
`self.cursor.execute('PRAGMA ? = ?', (key, value))`. -/
def SqliteDb.setitem (h : SqliteDb) (db : DbState) (key value : String) :
    Except Err DbState :=
  (h.executeRaw db "PRAGMA ? = ?" [key, value]).map (fun r => r.1)

/-- `SqliteDb.start_transaction` (source lines 86-88):
`self.cursor.execute(self.Q_START)`. -/
def SqliteDb.start_transaction (h : SqliteDb) (db : DbState) : Except Err DbState :=
  (h.executeRaw db SqliteDb.Q_START []).map (fun r => r.1)

/-- `SqliteDb.rollback` (source lines 90-92). -/
def SqliteDb.rollback (h : SqliteDb) (db : DbState) : Except Err DbState :=
  (h.executeRaw db SqliteDb.Q_ROLLBACK []).map (fun r => r.1)

/-- `SqliteDb.commit` (source lines 94-96). -/
def SqliteDb.commit (h : SqliteDb) (db : DbState) : Except Err DbState :=
  (h.executeRaw db SqliteDb.Q_COMMIT []).map (fun r => r.1)

/-- A caller-issued data statement through `self.cursor.execute`:
*NotOpenError* on a `None` cursor, *StatementError* when the engine rejects
the statement. -/
def SqliteDb.execStmt (h : SqliteDb) (db : DbState) (s : Stmt) : Except Err DbState :=
  match h.cursor with
  | none => Except.error Err.notOpen
  | some _ =>
      match applyStmt db s with
      | some db1 => Except.ok db1
      | none => Except.error Err.statementError

/-- The Python `with` statement over a `SqliteDb`: `__enter__`; when it
raises, `__exit__` is *not* invoked (Python's data model) and the exception
propagates; otherwise the body runs and `__exit__` runs on every exit path,
with a body exception propagating afterwards (`__exit__` returns `None`, so
it never suppresses one).  Result: final handle, final database content,
the full event trace, and the propagated exception if any. -/
def SqliteDb.withCtx (h : SqliteDb) (file : Option DbState)
    (body : SqliteDb → DbState → DbState × Option Err) :
    SqliteDb × DbState × List Ev × Option Err :=
  let r := h.enter file
  match r.err with
  | some e => (r.handle, r.db, r.trace, some e)
  | none =>
      let b := body r.handle r.db
      let c := SqliteDb.exit r.handle
      (c.1, b.1, r.trace ++ c.2, b.2)

/-- The states (handle, file content) reachable by any sequence of
construct / scoped-open / scoped-close operations, starting from a freshly
constructed handle; an open persists the post-`__enter__` database image as
the new file content (whether or not the init script raised). -/
inductive Reach : SqliteDb × Option DbState → Prop
  | construct (loc : String) (scr : Option (List Stmt)) (file : Option DbState) :
      Reach (SqliteDb.init loc scr, file)
  | enterStep (h : SqliteDb) (file : Option DbState) :
      Reach (h, file) → Reach ((h.enter file).handle, some (h.enter file).db)
  | exitStep (h : SqliteDb) (file : Option DbState) :
      Reach (h, file) → Reach ((SqliteDb.exit h).1, file)

/-- The row count of table `t` (0 when the table does not exist). -/
def rowsOf (db : DbState) (t : String) : Nat :=
  match db.rows.find? (fun p => p.1 == t) with
  | some p => p.2
  | none => 0

/-- Whether an event is the submission of a script. -/
def isScriptEv : Ev → Bool
  | Ev.submit (EngCmd.script _) => true
  | _ => false

/-- Whether `__enter__` executed the init script. -/
def scriptRan (r : EnterResult) : Bool := r.trace.any isScriptEv

/-- The spec's concrete scenario script: create table `points` and insert
`n` rows into it. -/
def pointsScript (n : Nat) : List Stmt :=
  Stmt.createTable "points" :: List.replicate n (Stmt.insertRow "points")

/-- One full open/close round on the file: construct a handle, enter, exit;
the file afterwards holds the post-enter database image. -/
def reopenOnce (loc : String) (scr : Option (List Stmt)) (file : Option DbState) :
    Option DbState :=
  let r := (SqliteDb.init loc scr).enter file
  let _ := SqliteDb.exit r.handle
  some r.db

/-- `n` successive open/close rounds on the file. -/
def reopenIter (loc : String) (scr : Option (List Stmt)) :
    Nat → Option DbState → Option DbState
  | 0, file => file
  | n + 1, file => reopenIter loc scr n (reopenOnce loc scr file)

/-- Iterated `__exit__` on a handle. -/
def exitIter : Nat → SqliteDb → SqliteDb
  | 0, h => h
  | n + 1, h => exitIter n (SqliteDb.exit h).1

/-! ## Lemmas -/

lemma exit_closed (h : SqliteDb) :
    ((SqliteDb.exit h).1).connection = none ∧ ((SqliteDb.exit h).1).cursor = none := by
  rcases h with ⟨l, s, c, u⟩
  cases c <;> cases u <;> simp [SqliteDb.exit]

lemma exit_exit (h : SqliteDb) :
    SqliteDb.exit ((SqliteDb.exit h).1) = (((SqliteDb.exit h).1), []) := by
  rcases h with ⟨l, s, c, u⟩
  cases c <;> cases u <;> rfl

lemma exitIter_succ (n : Nat) (h : SqliteDb) :
    exitIter (n + 1) h = (SqliteDb.exit h).1 := by
  induction n generalizing h with
  | zero => rfl
  | succ n ih =>
      show exitIter (n + 1) (SqliteDb.exit h).1 = (SqliteDb.exit h).1
      rw [ih ((SqliteDb.exit h).1), exit_exit]

lemma enter_handle_eq (h : SqliteDb) (file : Option DbState) :
    (h.enter file).handle
      = ⟨h.db_file_name, h.init_script_file_name, some (), some ()⟩ := by
  rcases h with ⟨l, s, c, u⟩
  cases s with
  | none => rfl
  | some script =>
      cases hb : countTablesResult (connectDb file) == 0 <;>
        simp [SqliteDb.enter, SqliteDb.is_empty_db, hb]

lemma reach_invariant (st : SqliteDb × Option DbState) (hr : Reach st) :
    st.1.connection = none ↔ st.1.cursor = none := by
  induction hr with
  | construct loc scr file => simp [SqliteDb.init]
  | enterStep h file _ _ => rw [enter_handle_eq]
  | exitStep h file _ _ => simp [(exit_closed h).1, (exit_closed h).2]

lemma scriptRan_iff (h : SqliteDb) (file : Option DbState) :
    scriptRan (h.enter file) = true ↔
      (h.init_script_file_name ≠ none ∧ countTablesResult (connectDb file) = 0) := by
  rcases h with ⟨l, s, c, u⟩
  cases s with
  | none => simp [SqliteDb.enter, scriptRan]
  | some script =>
      by_cases hc : countTablesResult (connectDb file) = 0
      · have hb : (countTablesResult (connectDb file) == 0) = true := by simpa using hc
        simp only [SqliteDb.enter, SqliteDb.is_empty_db, hb]
        simp [scriptRan, isScriptEv, hc]
      · have hb : (countTablesResult (connectDb file) == 0) = false := by simpa using hc
        simp only [SqliteDb.enter, SqliteDb.is_empty_db, hb]
        simp [scriptRan, isScriptEv, hc]

lemma enter_nonempty_db_unchanged (h : SqliteDb) (db : DbState)
    (hc : countTablesResult db ≠ 0) : (h.enter (some db)).db = db := by
  rcases h with ⟨l, s, c, u⟩
  cases s with
  | none => rfl
  | some script =>
      have hb : (countTablesResult (connectDb (some db)) == 0) = false := by
        simpa [connectDb] using hc
      simp only [SqliteDb.enter, SqliteDb.is_empty_db, hb]
      rfl

lemma reopenIter_fixed (db : DbState) (hc : 0 < countTablesResult db)
    (loc : String) (scr : Option (List Stmt)) (n : Nat) :
    reopenIter loc scr n (some db) = some db := by
  induction n with
  | zero => rfl
  | succ n ih =>
      have h1 : reopenOnce loc scr (some db) = some db := by
        simp [reopenOnce, enter_nonempty_db_unchanged _ _ hc.ne']
      show reopenIter loc scr n (reopenOnce loc scr (some db)) = some db
      rw [h1]
      exact ih

lemma runScript_replicate_insert (t : String) (m : List MasterRow) (k c : Nat) :
    runScript (List.replicate k (Stmt.insertRow t)) ⟨m, [(t, c)], []⟩
      = (⟨m, [(t, c + k)], []⟩, none) := by
  induction k generalizing c with
  | zero => simp [runScript]
  | succ k ih =>
      have hstep :
          runScript (List.replicate (k + 1) (Stmt.insertRow t)) ⟨m, [(t, c)], []⟩
            = runScript (List.replicate k (Stmt.insertRow t)) ⟨m, [(t, c + 1)], []⟩ := by
        rw [List.replicate_succ]
        simp [runScript, applyStmt, bumpRow]
      rw [hstep, ih (c + 1)]
      have e : c + 1 + k = c + (k + 1) := by omega
      rw [e]

lemma runScript_points (n : Nat) :
    runScript (pointsScript n) emptyDb
      = (⟨[⟨ObjType.table, "points"⟩], [("points", n)], []⟩, none) := by
  have h1 := runScript_replicate_insert "points" [⟨ObjType.table, "points"⟩] n 0
  rw [Nat.zero_add] at h1
  calc runScript (pointsScript n) emptyDb
      = runScript (List.replicate n (Stmt.insertRow "points"))
          ⟨[⟨ObjType.table, "points"⟩], [("points", 0)], []⟩ := rfl
    _ = (⟨[⟨ObjType.table, "points"⟩], [("points", n)], []⟩, none) := h1

lemma enter_points (n : Nat) :
    (SqliteDb.init "points.db" (some (pointsScript n))).enter none
      = ⟨⟨"points.db", some (pointsScript n), some (), some ()⟩,
         ⟨[⟨ObjType.table, "points"⟩], [("points", n)], []⟩,
         [Ev.submit (EngCmd.query SqliteDb.Q_COUNT_TABLES),
          Ev.submit (EngCmd.script (pointsScript n))], none⟩ := by
  have e : (SqliteDb.init "points.db" (some (pointsScript n))).enter none
      = ⟨⟨"points.db", some (pointsScript n), some (), some ()⟩,
         (runScript (pointsScript n) emptyDb).1,
         [Ev.submit (EngCmd.query SqliteDb.Q_COUNT_TABLES),
          Ev.submit (EngCmd.script (pointsScript n))],
         (runScript (pointsScript n) emptyDb).2⟩ := rfl
  rw [e, runScript_points n]

lemma enter_trace_shape (h : SqliteDb) (file : Option DbState) :
    (h.enter file).trace =
      match h.init_script_file_name with
      | none => []
      | some script =>
          Ev.submit (EngCmd.query SqliteDb.Q_COUNT_TABLES) ::
            (if countTablesResult (connectDb file) = 0
             then [Ev.submit (EngCmd.script script)] else []) := by
  rcases h with ⟨l, s, c, u⟩
  cases s with
  | none => rfl
  | some script =>
      by_cases hc : countTablesResult (connectDb file) = 0
      · have hb : (countTablesResult (connectDb file) == 0) = true := by simpa using hc
        simp only [SqliteDb.enter, SqliteDb.is_empty_db, hb]
        simp [hc]
      · have hb : (countTablesResult (connectDb file) == 0) = false := by simpa using hc
        simp only [SqliteDb.enter, SqliteDb.is_empty_db, hb]
        simp [hc]

lemma enter_fresh_script (h : SqliteDb) (script : List Stmt)
    (hs : h.init_script_file_name = some script) :
    (h.enter none).db = (runScript script emptyDb).1 ∧
    (h.enter none).err = (runScript script emptyDb).2 := by
  rcases h with ⟨l, s, c, u⟩
  cases hs
  exact ⟨rfl, rfl⟩

lemma is_empty_db_open (h : SqliteDb) (db : DbState) (hcu : h.cursor = some ()) :
    h.is_empty_db db = Except.ok (countTablesResult db == 0) := by
  simp [SqliteDb.is_empty_db, hcu]

lemma countTablesResult_zero_of_no_tables (db : DbState)
    (hall : db.master.all (fun r => !(r.typ == ObjType.table)) = true) :
    countTablesResult db = 0 := by
  have hf : db.master.filter (fun r => r.typ == ObjType.table) = [] := by
    rw [List.filter_eq_nil_iff]
    intro r hr
    have := List.all_eq_true.mp hall r hr
    simpa using this
  simp [countTablesResult, hf]

/-! ## Claims -/

/-- C1: the init script runs during `__enter__` exactly when a script was
configured and the database holds zero tables at open time; a database with
at least one table is never re-initialised over any number of open/close
rounds; and in the concrete scenario (script creates `points` and inserts
`n` rows; open, close, reopen, insert one caller row) the table holds
`n + 1` rows, not `n + 1 + n`. -/
theorem init_script_runs_exactly_on_empty :
    (∀ (h : SqliteDb) (file : Option DbState),
        scriptRan (h.enter file) = true ↔
          (h.init_script_file_name ≠ none ∧ countTablesResult (connectDb file) = 0))
    ∧ (∀ db : DbState, 0 < countTablesResult db →
        ∀ (loc : String) (scr : Option (List Stmt)) (n : Nat),
          reopenIter loc scr n (some db) = some db)
    ∧ (∀ n : Nat, ∃ r1 r2 : EnterResult,
        (SqliteDb.init "points.db" (some (pointsScript n))).enter none = r1
        ∧ ((SqliteDb.exit r1.handle).1).enter (some r1.db) = r2
        ∧ r1.err = none ∧ rowsOf r1.db "points" = n
        ∧ r2.db = r1.db ∧ scriptRan r2 = false
        ∧ ∃ db3, r2.handle.execStmt r2.db (Stmt.insertRow "points") = Except.ok db3
            ∧ rowsOf db3 "points" = n + 1) := by
  refine ⟨scriptRan_iff, reopenIter_fixed, fun n => ⟨_, _, enter_points n, rfl, ?_⟩⟩
  exact ⟨rfl, rfl, rfl, rfl, ⟨_, rfl, rfl⟩⟩

/-- C1 witness: the general parts applied at concrete inputs — a database
with one table survives two open/close rounds unchanged even with a script
configured, and on a fresh database with a script configured the script
does run. -/
theorem init_script_runs_exactly_on_empty_applied :
    reopenIter "f.db" (some [Stmt.createTable "t"]) 2
        (some ⟨[⟨ObjType.table, "t"⟩], [("t", 5)], []⟩)
      = some ⟨[⟨ObjType.table, "t"⟩], [("t", 5)], []⟩ ∧
    scriptRan ((SqliteDb.init "g.db" (some [Stmt.createTable "u"])).enter none) = true :=
  ⟨init_script_runs_exactly_on_empty.2.1 _ (by decide) "f.db" _ 2,
   (init_script_runs_exactly_on_empty.1 _ none).mpr ⟨by decide, by decide⟩⟩

/-- C2 counterexample: a successful Open with no init script configured
submits nothing to the engine — Python's `and` short-circuits, so the
empty-check (`Q_COUNT_TABLES`) is not evaluated, refuting the claim's
unconditional connect / executor / empty-check sequence. -/
theorem open_without_script_never_checks_empty :
    ((SqliteDb.init "fresh.db" none).enter none).err = none ∧
    Ev.submit (EngCmd.query SqliteDb.Q_COUNT_TABLES) ∉
      ((SqliteDb.init "fresh.db" none).enter none).trace :=
  ⟨rfl, fun hmem => List.not_mem_nil _ hmem⟩

/-- C2 (amended): `__enter__` connects and obtains the executor, and — only
when an init script was configured — submits the empty-check query and then,
if the table count is zero, the whole script, in that order; after `__enter__`
the handle is open; and on a fresh database with a configured script the
resulting database is exactly the script applied in full to the empty
database, before any caller-issued statement can run. -/
theorem enter_order_and_guarantee :
    (∀ (h : SqliteDb) (file : Option DbState),
        (h.enter file).trace =
          match h.init_script_file_name with
          | none => []
          | some script =>
              Ev.submit (EngCmd.query SqliteDb.Q_COUNT_TABLES) ::
                (if countTablesResult (connectDb file) = 0
                 then [Ev.submit (EngCmd.script script)] else []))
    ∧ (∀ (h : SqliteDb) (file : Option DbState),
        ((h.enter file).handle).connection = some ()
          ∧ ((h.enter file).handle).cursor = some ())
    ∧ (∀ (h : SqliteDb) (script : List Stmt),
        h.init_script_file_name = some script →
          (h.enter none).db = (runScript script emptyDb).1
            ∧ (h.enter none).err = (runScript script emptyDb).2) :=
  ⟨enter_trace_shape,
   fun h file => by rw [enter_handle_eq]; exact ⟨rfl, rfl⟩,
   enter_fresh_script⟩

/-- C2 witness: the amended theorem applied to a handle with the one-table
script on a fresh database. -/
theorem enter_order_and_guarantee_applied :
    ((SqliteDb.init "f.db" (some [Stmt.createTable "t"])).enter none).handle.connection
        = some () ∧
    ((SqliteDb.init "f.db" (some [Stmt.createTable "t"])).enter none).db
        = (runScript [Stmt.createTable "t"] emptyDb).1 :=
  ⟨(enter_order_and_guarantee.2.1 _ none).1,
   (enter_order_and_guarantee.2.2 _ [Stmt.createTable "t"] rfl).1⟩

/-- C3: the six configuration pragmas are *not* applied at connection open —
a successful `__enter__` with no init script submits no statement at all to
the engine, so in particular neither pragma constant ever reaches it.  The
class defines the constants (source lines 21-30) but `__enter__` (lines
53-60) never executes them. -/
theorem pragmas_never_submitted_at_open :
    ((SqliteDb.init "app.db" none).enter none).err = none ∧
    ((SqliteDb.init "app.db" none).enter none).trace = [] ∧
    Ev.submit (EngCmd.query SqliteDb.PRAGMAS) ∉
      ((SqliteDb.init "app.db" none).enter none).trace ∧
    Ev.submit (EngCmd.query SqliteDb.PRAGMAS_PER_CONNECTION) ∉
      ((SqliteDb.init "app.db" none).enter none).trace :=
  ⟨rfl, rfl, fun hmem => List.not_mem_nil _ hmem, fun hmem => List.not_mem_nil _ hmem⟩

/-- C4: when a statement of the init script fails during `__enter__`, the
error propagates as a *ScriptError* but the connection is *not* closed
first: the handle's `connection` and `cursor` are still set, and no
close-connection event occurs — under Python's `with`, `__exit__` is not
invoked when `__enter__` raises, so the connection leaks. -/
theorem failing_script_leaks_connection :
    ((SqliteDb.init "f.db" (some [Stmt.invalidStmt])).enter none).err
        = some Err.scriptError ∧
    ((SqliteDb.init "f.db" (some [Stmt.invalidStmt])).enter none).handle.connection
        = some () ∧
    ((SqliteDb.init "f.db" (some [Stmt.invalidStmt])).enter none).handle.cursor
        = some () ∧
    Ev.closeConnection ∉
      ((SqliteDb.init "f.db" (some [Stmt.invalidStmt])).enter none).trace ∧
    (SqliteDb.withCtx (SqliteDb.init "f.db" (some [Stmt.invalidStmt])) none
        (fun _ db => (db, none))).2.2.2 = some Err.scriptError ∧
    Ev.closeConnection ∉
      (SqliteDb.withCtx (SqliteDb.init "f.db" (some [Stmt.invalidStmt])) none
        (fun _ db => (db, none))).2.2.1 ∧
    (SqliteDb.withCtx (SqliteDb.init "f.db" (some [Stmt.invalidStmt])) none
        (fun _ db => (db, none))).1.connection = some () := by
  refine ⟨rfl, rfl, rfl, ?_, rfl, ?_, rfl⟩ <;> decide

/-- C5: `__exit__` closes the cursor before the connection (the event list
is always a sublist of `[closeCursor, closeConnection]` in that order), sets
both fields to `None`, is a total function (never raises), is a no-op on an
already-closed handle, and is idempotent under any number of repeated
calls. -/
theorem close_idempotent_and_ordered :
    (∀ h : SqliteDb, ((SqliteDb.exit h).1).cursor = none
        ∧ ((SqliteDb.exit h).1).connection = none)
    ∧ (∀ h : SqliteDb, (SqliteDb.exit h).2.Sublist [Ev.closeCursor, Ev.closeConnection])
    ∧ (∀ h : SqliteDb, h.cursor = none → h.connection = none →
        SqliteDb.exit h = (h, []))
    ∧ (∀ h : SqliteDb, SqliteDb.exit ((SqliteDb.exit h).1) = (((SqliteDb.exit h).1), []))
    ∧ (∀ (h : SqliteDb) (n : Nat), exitIter (n + 1) h = (SqliteDb.exit h).1) := by
  refine ⟨fun h => ⟨(exit_closed h).2, (exit_closed h).1⟩, ?_, ?_, exit_exit,
    fun h n => exitIter_succ n h⟩
  · intro h
    rcases h with ⟨l, s, c, u⟩
    cases c <;> cases u <;> simp [SqliteDb.exit]
  · intro h hcu hco
    rcases h with ⟨l, s, c, u⟩
    cases hcu
    cases hco
    rfl

/-- C5 witness: closing an already-closed handle is a no-op. -/
theorem close_idempotent_and_ordered_applied :
    SqliteDb.exit ⟨"f.db", none, none, none⟩ = (⟨"f.db", none, none, none⟩, []) :=
  close_idempotent_and_ordered.2.2.1 _ rfl rfl

/-- C6: construction yields a closed handle (`connection = cursor = None`;
the constructor is a total pure function of its two configuration arguments,
so it performs no I/O and cannot fail); over every reachable state of any
construct/open/close sequence, `connection` is null exactly when `cursor`
is; after `__enter__` both are set, after `__exit__` both are null. -/
theorem handle_state_invariant :
    (∀ (loc : String) (scr : Option (List Stmt)),
        (SqliteDb.init loc scr).connection = none ∧ (SqliteDb.init loc scr).cursor = none)
    ∧ (∀ st : SqliteDb × Option DbState, Reach st →
        (st.1.connection = none ↔ st.1.cursor = none))
    ∧ (∀ (h : SqliteDb) (file : Option DbState),
        ((h.enter file).handle).connection = some ()
          ∧ ((h.enter file).handle).cursor = some ())
    ∧ (∀ h : SqliteDb, ((SqliteDb.exit h).1).connection = none
        ∧ ((SqliteDb.exit h).1).cursor = none) :=
  ⟨fun loc scr => ⟨rfl, rfl⟩,
   reach_invariant,
   fun h file => by rw [enter_handle_eq]; exact ⟨rfl, rfl⟩,
   exit_closed⟩

/-- C6 witness: the invariant applied to a state reached by construct, open,
close. -/
theorem handle_state_invariant_applied :
    (((SqliteDb.exit
        (((SqliteDb.init "f.db" none).enter none).handle)).1).connection = none ↔
      ((SqliteDb.exit
        (((SqliteDb.init "f.db" none).enter none).handle)).1).cursor = none) :=
  handle_state_invariant.2.1 _
    (Reach.exitStep _ _ (Reach.enterStep _ _ (Reach.construct "f.db" none none)))

/-- C7: on a handle whose cursor is live, `is_empty_db` returns true exactly
when the catalog's count of tables is zero; on a closed handle the `None`
cursor access fails (*NotOpenError*). -/
theorem is_empty_db_spec :
    (∀ (h : SqliteDb) (db : DbState), h.cursor = some () →
        (h.is_empty_db db = Except.ok true ↔ countTablesResult db = 0))
    ∧ (∀ (h : SqliteDb) (db : DbState), h.cursor = none →
        h.is_empty_db db = Except.error Err.notOpen) := by
  constructor
  · intro h db hcu
    simp [SqliteDb.is_empty_db, hcu]
  · intro h db hcu
    simp [SqliteDb.is_empty_db, hcu]

/-- C7 witness: an open handle on an empty database reports empty; a closed
handle fails. -/
theorem is_empty_db_spec_applied :
    SqliteDb.is_empty_db ⟨"f.db", none, some (), some ()⟩ emptyDb = Except.ok true ∧
    SqliteDb.is_empty_db ⟨"f.db", none, none, none⟩ emptyDb = Except.error Err.notOpen :=
  ⟨(is_empty_db_spec.1 _ emptyDb rfl).mpr rfl, is_empty_db_spec.2 _ emptyDb rfl⟩

/-- C8: indexed pragma access builds the parameterized texts `PRAGMA ?` /
`PRAGMA ? = ?` with the pragma name as a bound parameter; the engine rejects
a parameter marker in the name position (spec §4.1), so both fail with a
statement error instead of reading or writing the pragma — even though the
engine holds a value for that pragma and accepts the same pragma spelled as
a literal. -/
theorem pragma_indexed_access_rejected :
    SqliteDb.getitem ⟨"f.db", none, some (), some ()⟩
        ⟨[], [], [("journal_mode", "wal")]⟩ "journal_mode"
      = Except.error Err.statementError ∧
    SqliteDb.setitem ⟨"f.db", none, some (), some ()⟩
        ⟨[], [], [("journal_mode", "wal")]⟩ "journal_mode" "DELETE"
      = Except.error Err.statementError ∧
    parseRaw "PRAGMA journal_mode" = some (RawParsed.pragmaRead "journal_mode") ∧
    pragmaValue ⟨[], [], [("journal_mode", "wal")]⟩ "journal_mode" = "wal" := by
  refine ⟨?_, ?_, ?_, ?_⟩ <;> decide

/-- C9: `commit` and `rollback` pass `COMMIT` / `ROLLBACK` through to the
engine and succeed, and all three transaction methods fail with
*NotOpenError* on a closed handle; but `start_transaction` submits
`Q_START = START TRANSACTION`, which is not the engine dialect's
begin-transaction syntax (`BEGIN TRANSACTION` is), so it fails with a
statement error on an open handle. -/
theorem start_transaction_rejected :
    SqliteDb.start_transaction ⟨"f.db", none, some (), some ()⟩ emptyDb
      = Except.error Err.statementError ∧
    SqliteDb.commit ⟨"f.db", none, some (), some ()⟩ emptyDb = Except.ok emptyDb ∧
    SqliteDb.rollback ⟨"f.db", none, some (), some ()⟩ emptyDb = Except.ok emptyDb ∧
    SqliteDb.start_transaction ⟨"f.db", none, none, none⟩ emptyDb
      = Except.error Err.notOpen ∧
    SqliteDb.commit ⟨"f.db", none, none, none⟩ emptyDb = Except.error Err.notOpen ∧
    SqliteDb.rollback ⟨"f.db", none, none, none⟩ emptyDb = Except.error Err.notOpen ∧
    parseRaw "BEGIN TRANSACTION" = some RawParsed.beginTxn ∧
    parseRaw SqliteDb.Q_START = none := by
  refine ⟨?_, ?_, ?_, ?_, ?_, ?_, ?_, ?_⟩ <;> decide

/-- C10: the emptiness check counts only catalog rows of type `table`, so a
database whose catalog holds only non-table objects reports empty, and
opening such a database with an init script configured runs the script
again. -/
theorem no_tables_only_views_reinit :
    (∀ (h : SqliteDb) (db : DbState), h.cursor = some () →
        db.master.all (fun r => !(r.typ == ObjType.table)) = true →
        h.is_empty_db db = Except.ok true)
    ∧ (∀ (db : DbState) (loc : String) (script : List Stmt),
        db.master.all (fun r => !(r.typ == ObjType.table)) = true →
        scriptRan ((SqliteDb.init loc (some script)).enter (some db)) = true) := by
  constructor
  · intro h db hcu hall
    rw [is_empty_db_open h db hcu]
    exact congrArg Except.ok (by simp [countTablesResult_zero_of_no_tables db hall])
  · intro db loc script hall
    exact (scriptRan_iff _ (some db)).mpr
      ⟨by simp [SqliteDb.init],
       by simpa [connectDb] using countTablesResult_zero_of_no_tables db hall⟩

/-- C10 witness: a catalog holding a single view reports empty and triggers
the script on reopen. -/
theorem no_tables_only_views_reinit_applied :
    SqliteDb.is_empty_db ⟨"f.db", none, some (), some ()⟩
        ⟨[⟨ObjType.view, "v"⟩], [], []⟩ = Except.ok true ∧
    scriptRan ((SqliteDb.init "f.db" (some [Stmt.createTable "t"])).enter
        (some ⟨[⟨ObjType.view, "v"⟩], [], []⟩)) = true :=
  ⟨no_tables_only_views_reinit.1 _ _ rfl (by decide),
   no_tables_only_views_reinit.2 _ "f.db" [Stmt.createTable "t"] (by decide)⟩

end SQLiteCls
